import Mathlib

/-!
Shallow embedding of the pomodoro status-bar block
(`src/blocks/pomodoro.rs` of i3status-rust).

Modelling choices:
* `std::time::Instant` (a monotonic clock reading) and `std::time::Duration`
  are both abstract tick counts, embedded as `Nat`.  The representable
  minimum of the clock is `0`.
* `Instant::now()` is passed explicitly as a `now : Instant` argument to
  every operation; one call to `update`/`click` observes a single `now`.
* Rust panics (`unreachable!()`, `Option::unwrap`, `Result::expect`) are
  embedded as `none` in an `Option` result: a `none` result means the call
  aborts the process instead of returning.
* The external notifier (`spawn_child_async` inside `Pomodoro::nag`) is
  embedded by recording the argument list of each spawn as a `NagCall`;
  whether the spawn itself succeeds is an environment input `spawnOk`.
* The widget (`ButtonWidget`, `set_text`, `compute_state`) is purely
  presentational and touches neither the phase nor the counter; it is not
  part of the embedded state.
-/

/-- A monotonic clock reading (`std::time::Instant`), in abstract ticks;
the representable minimum of the clock is `0`. -/
abbrev Instant := Nat

/-- A span of time (`std::time::Duration`), in the same abstract ticks. -/
abbrev Duration := Nat

/-- `Instant::checked_sub`: `none` when the subtraction would land before
the representable minimum of the clock. -/
def Instant.checkedSub (t : Instant) (d : Duration) : Option Instant :=
  if d ≤ t then some (t - d) else none

/-- The `PomodoroState` enum from the source: `Started` is the working
phase, `Stopped` the idle phase, `Paused` carries the frozen elapsed
duration, `OnBreak` the break phase. -/
inductive PomodoroState
  | Started (start : Instant)
  | Stopped
  | Paused (duration : Duration)
  | OnBreak (start : Instant)
deriving DecidableEq

/-- `PomodoroState::elapsed`.  In `Stopped` the source executes
`unreachable!()`, which panics: embedded as `none`.  In `Started`/`OnBreak`
it is `Instant::now().duration_since(start)`, a saturating difference of
clock readings (the clock is monotone, so `start ≤ now` in every real
execution). -/
def PomodoroState.elapsed (s : PomodoroState) (now : Instant) : Option Duration :=
  match s with
  | .Started start => some (now - start)
  | .Stopped => none
  | .Paused duration => some duration
  | .OnBreak start => some (now - start)

/-- One spawn of the external notifier: the executable path and the
`-t level -m message` arguments `Pomodoro::nag` passes it. -/
structure NagCall where
  path : String
  level : String
  message : String
deriving DecidableEq

/-- The `Pomodoro` block struct, without its presentational
`ButtonWidget` field (`time`). -/
structure Pomodoro where
  id : String
  state : PomodoroState
  length : Duration
  break_length : Duration
  update_interval : Duration
  message : String
  break_message : String
  count : Nat
  use_nag : Bool
  nag_path : String
deriving DecidableEq

/-- `Pomodoro::nag`: spawns the notifier via `spawn_child_async` with
arguments `-t level -m message` and `.expect`s the spawn to succeed.
A failed spawn (`spawnOk = false`) panics, embedded as `none`; a
successful spawn yields the one recorded `NagCall`. -/
def Pomodoro.nag (b : Pomodoro) (message level : String) (spawnOk : Bool) :
    Option (List NagCall) :=
  if spawnOk then some [⟨b.nag_path, level, message⟩] else none

/-- `Block::update` for `Pomodoro` (the periodic tick).  Returns the
updated block, the notifier spawns made, and the re-poll hint
`update_interval`; `none` is a panic (failed `nag`).  The presentational
`set_text` call at the top of the source function is omitted. -/
def Pomodoro.update (b : Pomodoro) (now : Instant) (spawnOk : Bool) :
    Option (Pomodoro × List NagCall × Duration) :=
  match b.state with
  | .Started _ =>
      match b.state.elapsed now with
      | none => none
      | some e =>
          if e ≥ b.length then
            match (if b.use_nag then b.nag b.message "error" spawnOk else some []) with
            | none => none
            | some calls =>
                some ({ b with state := .OnBreak now }, calls, b.update_interval)
          else some (b, [], b.update_interval)
  | .OnBreak _ =>
      match b.state.elapsed now with
      | none => none
      | some e =>
          if e ≥ b.break_length then
            match (if b.use_nag then b.nag b.break_message "warning" spawnOk else some []) with
            | none => none
            | some calls =>
                some ({ b with state := .Stopped, count := b.count + 1 }, calls, b.update_interval)
          else some (b, [], b.update_interval)
  | _ => some (b, [], b.update_interval)

/-- Modelled from the spec: the mouse buttons of `crate::input::MouseButton`
(the `input` module is not under `src/`); the block only distinguishes
`Right` from everything else. -/
inductive MouseButton
  | Left
  | Middle
  | Right
  | WheelUp
  | WheelDown
deriving DecidableEq

/-- Modelled from the spec: the fields of `crate::input::I3BarEvent` the
block reads — the optional target name and the button. -/
structure I3BarEvent where
  name : Option String
  button : MouseButton
deriving DecidableEq

/-- `Block::click` for `Pomodoro`.  Returns the updated block and the
notifier spawns made (always none on the click path); `none` is a panic
(the `checked_sub(..).unwrap()` on resume).  The trailing presentational
`set_text` call is omitted. -/
def Pomodoro.click (b : Pomodoro) (event : I3BarEvent) (now : Instant) :
    Option (Pomodoro × List NagCall) :=
  match event.name with
  | some name =>
      if name = b.id then
        match event.button with
        | .Right => some ({ b with state := .Stopped, count := 0 }, [])
        | _ =>
            match b.state with
            | .Stopped => some ({ b with state := .Started now }, [])
            | .Started _ =>
                match b.state.elapsed now with
                | none => none
                | some e => some ({ b with state := .Paused e }, [])
            | .Paused duration =>
                match Instant.checkedSub now duration with
                | none => none
                | some t => some ({ b with state := .Started t }, [])
            | .OnBreak _ =>
                some ({ b with state := .Started now, count := b.count + 1 }, [])
      else some (b, [])
  | none => some (b, [])

/-- A sample block used by the witness theorems: working phase started at
clock reading 0, work length 3 ticks, break length 2 ticks, nagging
enabled. -/
def sampleWorking : Pomodoro :=
  ⟨"blk", .Started 0, 3, 2, 1, "work over", "break over", 4, true, "i3-nagbar"⟩

/-- Claim C1: a tick in the working phase that observes
`elapsed ≥ work_duration` moves the block to `OnBreak now`, spawns the
notifier exactly once with the work message at "error" severity when
nagging is enabled (and not at all otherwise), leaves `count` unchanged,
and returns the usual re-poll hint.  The spawn itself succeeds
(`spawnOk = true`); a failing spawn is claim C6. -/
theorem C1_working_tick_to_break (b : Pomodoro) (start now : Instant)
    (hs : b.state = .Started start) (he : now - start ≥ b.length) :
    b.update now true =
      some ({ b with state := .OnBreak now },
        (if b.use_nag then [⟨b.nag_path, "error", b.message⟩] else []),
        b.update_interval) := by
  cases hu : b.use_nag <;>
    simp [Pomodoro.update, hs, PomodoroState.elapsed, he, Pomodoro.nag, hu]

/-- Claim C1, witness: the sample working block at `now = 5` (elapsed 5 ≥
length 3) ticks into `OnBreak 5` with one "error" nag and unchanged
count. -/
theorem C1_witness :
    sampleWorking.state = .Started 0 ∧ 5 - 0 ≥ sampleWorking.length ∧
      sampleWorking.update 5 true =
        some ({ sampleWorking with state := .OnBreak 5 },
          (if sampleWorking.use_nag then
            [⟨sampleWorking.nag_path, "error", sampleWorking.message⟩] else []),
          sampleWorking.update_interval) :=
  ⟨rfl, by decide, C1_working_tick_to_break sampleWorking 0 5 rfl (by decide)⟩

/-- A sample block used by the witness theorems: on break since clock
reading 2, break length 2 ticks, nagging enabled. -/
def sampleBreak : Pomodoro :=
  ⟨"blk", .OnBreak 2, 3, 2, 1, "work over", "break over", 4, true, "i3-nagbar"⟩

/-- Claim C2: a tick in the break phase that observes
`elapsed ≥ break_duration` moves the block to `Stopped` (idle), increments
`count` by exactly 1, and spawns the notifier exactly once with the break
message at "warning" severity when nagging is enabled (and not at all
otherwise).  The spawn itself succeeds (`spawnOk = true`). -/
theorem C2_break_tick_to_idle (b : Pomodoro) (start now : Instant)
    (hs : b.state = .OnBreak start) (he : now - start ≥ b.break_length) :
    b.update now true =
      some ({ b with state := .Stopped, count := b.count + 1 },
        (if b.use_nag then [⟨b.nag_path, "warning", b.break_message⟩] else []),
        b.update_interval) := by
  cases hu : b.use_nag <;>
    simp [Pomodoro.update, hs, PomodoroState.elapsed, he, Pomodoro.nag, hu]

/-- Claim C2, witness: the sample break block at `now = 5` (elapsed 3 ≥
break length 2) ticks into `Stopped` with count bumped from 4 to 5 and one
"warning" nag. -/
theorem C2_witness :
    sampleBreak.state = .OnBreak 2 ∧ 5 - 2 ≥ sampleBreak.break_length ∧
      sampleBreak.update 5 true =
        some ({ sampleBreak with state := .Stopped, count := sampleBreak.count + 1 },
          (if sampleBreak.use_nag then
            [⟨sampleBreak.nag_path, "warning", sampleBreak.break_message⟩] else []),
          sampleBreak.update_interval) :=
  ⟨rfl, by decide, C2_break_tick_to_idle sampleBreak 2 5 rfl (by decide)⟩

/-- Claim C3: pausing then resuming preserves elapsed-time continuity.
From `Started start`, a matching non-`Right` click at time `t1` freezes
the block in `Paused (elapsed at t1)`; a later matching non-`Right` click
at time `t2` backdates the start to `t2 - accumulated`, so the elapsed
value just after resume equals the elapsed value just before pause
(exactly, in this discrete-clock model). -/
theorem C3_pause_resume_continuity (b b1 b2 : Pomodoro) (start : Instant)
    (e1 e2 : I3BarEvent) (t1 t2 : Instant)
    (hs : b.state = .Started start)
    (hn1 : e1.name = some b.id) (hb1 : e1.button ≠ .Right)
    (hn2 : e2.name = some b1.id) (hb2 : e2.button ≠ .Right)
    (h1 : b.click e1 t1 = some (b1, []))
    (h2 : b1.click e2 t2 = some (b2, [])) :
    b1.state = .Paused (t1 - start) ∧
      b2.state.elapsed t2 = b.state.elapsed t1 := by
  have hb1' : b1 = { b with state := .Paused (t1 - start) } := by
    cases hbut : e1.button <;> try (exact absurd hbut hb1)
    all_goals
      simp [Pomodoro.click, hn1, hbut, hs, PomodoroState.elapsed] at h1
    all_goals exact h1.symm
  subst hb1'
  refine ⟨rfl, ?_⟩
  have hle : t1 - start ≤ t2 := by
    by_contra hgt
    cases hbut : e2.button <;> try (exact absurd hbut hb2)
    all_goals
      simp [Pomodoro.click, hn2, hbut, Instant.checkedSub, hgt] at h2
  have hb2' : b2.state = .Started (t2 - (t1 - start)) := by
    cases hbut : e2.button <;> try (exact absurd hbut hb2)
    all_goals
      simp [Pomodoro.click, hn2, hbut, Instant.checkedSub, hle] at h2
    all_goals rw [← h2]
  rw [hb2', hs]
  simp [PomodoroState.elapsed, Nat.sub_sub_self hle]

/-- Claim C3, witness: the sample working block (started at 0) paused at
`t1 = 2` and resumed at `t2 = 10` shows the same elapsed value (2 ticks)
right after resume as right before pause. -/
theorem C3_witness :
    sampleWorking.state = .Started 0 ∧
      (⟨some "blk", .Left⟩ : I3BarEvent).name = some sampleWorking.id ∧
      (⟨some "blk", .Left⟩ : I3BarEvent).button ≠ .Right ∧
      sampleWorking.click ⟨some "blk", .Left⟩ 2 =
        some ({ sampleWorking with state := .Paused 2 }, []) ∧
      ({ sampleWorking with state := .Paused 2 } : Pomodoro).click
          ⟨some "blk", .Left⟩ 10 =
        some ({ sampleWorking with state := .Started 8 }, []) ∧
      ({ sampleWorking with state := .Paused 2 } : Pomodoro).state = .Paused (2 - 0) ∧
      ({ sampleWorking with state := .Started 8 } : Pomodoro).state.elapsed 10 =
        sampleWorking.state.elapsed 2 :=
  ⟨rfl, rfl, by decide, by decide, by decide,
    (C3_pause_resume_continuity sampleWorking
        { sampleWorking with state := .Paused 2 }
        { sampleWorking with state := .Started 8 } 0
        ⟨some "blk", .Left⟩ ⟨some "blk", .Left⟩ 2 10
        rfl rfl (by decide) rfl (by decide) (by decide) (by decide)).1,
    (C3_pause_resume_continuity sampleWorking
        { sampleWorking with state := .Paused 2 }
        { sampleWorking with state := .Started 8 } 0
        ⟨some "blk", .Left⟩ ⟨some "blk", .Left⟩ 2 10
        rfl rfl (by decide) rfl (by decide) (by decide) (by decide)).2⟩

/-- Claim C4 (failing input): a block paused with 5 accumulated ticks,
clicked (non-`Right`, matching name) at clock reading 3 — `now` is before
the representable minimum plus the accumulated offset, so
`Instant::now().checked_sub(duration)` is `None` and the source's
`.unwrap()` panics.  The code does NOT recover by restarting from
`Working(now)`: the click aborts (`none`) instead of producing any state. -/
theorem C4_underflow_click_panics :
    Pomodoro.click
      ⟨"blk", .Paused 5, 3, 2, 1, "work over", "break over", 0, false, "i3-nagbar"⟩
      ⟨some "blk", .Left⟩ 3 = none := by decide

/-- Claim C5 (counterexample): `elapsed()` queried in the idle phase does
not return a zero duration — the source hits `unreachable!()` and panics,
so the result is `none`, not `some 0`. -/
theorem C5_counterexample : PomodoroState.elapsed .Stopped 0 ≠ some 0 := by
  decide

/-- Claim C5 (amended): if `elapsed()` is called while the block is in the
idle phase it panics (`unreachable!()`), embedded as `none`, rather than
returning a zero duration; the block itself never calls `elapsed()` while
idle. -/
theorem C5_elapsed_idle_panics (now : Instant) :
    PomodoroState.elapsed .Stopped now = none := rfl

/-- Claim C6 (failing input): the sample working block at `now = 5` with
nagging enabled and a notifier that fails to spawn.  The `.expect` inside
`Pomodoro::nag` panics, aborting the whole process: `update` produces no
result, so the phase transition to `OnBreak` is NOT committed and
processing does not continue — launch failure is fatal, contradicting
the claim. -/
theorem C6_nag_failure_aborts_update :
    sampleWorking.update 5 false = none := by decide

/-- Claim C7: a click with the `Right` button whose target name matches
the block unconditionally resets it — phase becomes `Stopped` (idle) and
`count` becomes 0, whatever the prior phase was — and spawns no
notifier. -/
theorem C7_right_click_resets (b : Pomodoro) (event : I3BarEvent) (now : Instant)
    (hn : event.name = some b.id) (hb : event.button = .Right) :
    b.click event now = some ({ b with state := .Stopped, count := 0 }, []) := by
  simp [Pomodoro.click, hn, hb]

/-- Claim C7, witness: a matching right click at `now = 7` resets the
sample break block (count 4, on break) to idle with count 0 and no nag. -/
theorem C7_witness :
    (⟨some "blk", .Right⟩ : I3BarEvent).name = some sampleBreak.id ∧
      (⟨some "blk", .Right⟩ : I3BarEvent).button = .Right ∧
      sampleBreak.click ⟨some "blk", .Right⟩ 7 =
        some ({ sampleBreak with state := .Stopped, count := 0 }, []) :=
  ⟨rfl, rfl, C7_right_click_resets sampleBreak ⟨some "blk", .Right⟩ 7 rfl rfl⟩

/-- Claim C8: a matching non-`Right` click while on break skips the rest
of the break — phase becomes `Started now` and `count` is incremented by
exactly 1 — and spawns no notifier. -/
theorem C8_break_click_skips (b : Pomodoro) (start now : Instant)
    (event : I3BarEvent) (hs : b.state = .OnBreak start)
    (hn : event.name = some b.id) (hb : event.button ≠ .Right) :
    b.click event now =
      some ({ b with state := .Started now, count := b.count + 1 }, []) := by
  cases hbut : event.button <;> try (exact absurd hbut hb)
  all_goals simp [Pomodoro.click, hn, hbut, hs]

/-- Claim C8, witness: a matching left click on the sample break block at
`now = 4` restarts work immediately and bumps count from 4 to 5. -/
theorem C8_witness :
    sampleBreak.state = .OnBreak 2 ∧
      (⟨some "blk", .Left⟩ : I3BarEvent).name = some sampleBreak.id ∧
      (⟨some "blk", .Left⟩ : I3BarEvent).button ≠ .Right ∧
      sampleBreak.click ⟨some "blk", .Left⟩ 4 =
        some ({ sampleBreak with state := .Started 4, count := sampleBreak.count + 1 }, []) :=
  ⟨rfl, rfl, by decide,
    C8_break_click_skips sampleBreak 2 4 ⟨some "blk", .Left⟩ rfl rfl (by decide)⟩

/-- Helper: a successful tick never decreases the cycle counter (it leaves
it unchanged or, on break completion, increments it). -/
theorem Pomodoro.update_count_le (b : Pomodoro) (now : Instant) (sOk : Bool)
    (b' : Pomodoro) (calls : List NagCall) (d : Duration)
    (h : b.update now sOk = some (b', calls, d)) : b.count ≤ b'.count := by
  unfold Pomodoro.update at h
  cases hst : b.state <;> rw [hst] at h <;>
    simp only [PomodoroState.elapsed] at h <;>
    repeat' split at h
  all_goals simp_all
  all_goals simp [← h.1]

/-- Helper: a matching `Right` click resets the block: idle phase, zero
count, no notifier spawn. -/
theorem Pomodoro.click_right_reset (b : Pomodoro) (event : I3BarEvent)
    (now : Instant) (hn : event.name = some b.id) (hb : event.button = .Right) :
    b.click event now = some ({ b with state := .Stopped, count := 0 }, []) := by
  simp [Pomodoro.click, hn, hb]

/-- Helper: a successful non-`Right` click never decreases the cycle
counter. -/
theorem Pomodoro.click_count_le (b : Pomodoro) (event : I3BarEvent)
    (now : Instant) (b' : Pomodoro) (calls : List NagCall)
    (hb : event.button ≠ .Right)
    (h : b.click event now = some (b', calls)) : b.count ≤ b'.count := by
  cases hne : event.name with
  | none =>
      simp [Pomodoro.click, hne] at h
      simp [← h.1]
  | some n =>
      by_cases hid : n = b.id
      · subst hid
        cases hbut : event.button <;> try (exact absurd hbut hb)
        all_goals
          cases hst : b.state <;>
            simp [Pomodoro.click, hne, hbut, hst, PomodoroState.elapsed,
              Instant.checkedSub] at h <;>
            repeat' split at h
        all_goals simp_all
        all_goals simp [← h.1]
      · simp [Pomodoro.click, hne, hid] at h
        simp [← h.1]

/-- Claim C9: the cycle counter is monotone non-decreasing across every
successful tick and every successful non-`Right` click; the only
operation that can decrease it is the matching `Right`-click reset, which
sets it to 0. -/
theorem C9_count_monotone :
    (∀ (b : Pomodoro) (now : Instant) (sOk : Bool) (b' : Pomodoro)
        (calls : List NagCall) (d : Duration),
        b.update now sOk = some (b', calls, d) → b.count ≤ b'.count) ∧
    (∀ (b : Pomodoro) (event : I3BarEvent) (now : Instant) (b' : Pomodoro)
        (calls : List NagCall),
        event.button ≠ .Right → b.click event now = some (b', calls) →
        b.count ≤ b'.count) ∧
    (∀ (b : Pomodoro) (event : I3BarEvent) (now : Instant),
        event.name = some b.id → event.button = .Right →
        b.click event now = some ({ b with state := .Stopped, count := 0 }, [])) :=
  ⟨Pomodoro.update_count_le, Pomodoro.click_count_le, Pomodoro.click_right_reset⟩

/-- Claim C9, witness: a break-completing tick on the sample working
block keeps the count, a break-skipping click keeps it non-decreasing,
and a matching right click resets the sample break block to count 0. -/
theorem C9_witness :
    (sampleWorking.count ≤
        ({ sampleWorking with state := .OnBreak 5 } : Pomodoro).count) ∧
      (sampleBreak.count ≤
        ({ sampleBreak with state := .Started 4, count := sampleBreak.count + 1 } : Pomodoro).count) ∧
      sampleBreak.click ⟨some "blk", .Right⟩ 8 =
        some ({ sampleBreak with state := .Stopped, count := 0 }, []) :=
  ⟨C9_count_monotone.1 sampleWorking 5 true
      { sampleWorking with state := .OnBreak 5 }
      [⟨"i3-nagbar", "error", "work over"⟩] 1 (by decide),
    C9_count_monotone.2.1 sampleBreak ⟨some "blk", .Left⟩ 4
      { sampleBreak with state := .Started 4, count := sampleBreak.count + 1 }
      [] (by decide) (by decide),
    C9_count_monotone.2.2 sampleBreak ⟨some "blk", .Right⟩ 8 rfl rfl⟩

/-- Claim C10: a click whose carried target name is absent, or differs
from this block's id, changes nothing: the block (phase and count
included) is returned unchanged and no notifier is spawned. -/
theorem C10_unaddressed_click_noop (b : Pomodoro) (event : I3BarEvent)
    (now : Instant) (hn : event.name ≠ some b.id) :
    b.click event now = some (b, []) := by
  cases hne : event.name with
  | none => simp [Pomodoro.click, hne]
  | some n =>
      have hid : ¬n = b.id := fun h => hn (by rw [hne, h])
      simp [Pomodoro.click, hne, hid]

/-- Claim C10, witness: a click addressed to "other" and a click with no
target name both leave the sample blocks exactly as they were. -/
theorem C10_witness :
    ((⟨some "other", .Left⟩ : I3BarEvent).name ≠ some sampleWorking.id ∧
        sampleWorking.click ⟨some "other", .Left⟩ 9 = some (sampleWorking, [])) ∧
      ((⟨none, .Right⟩ : I3BarEvent).name ≠ some sampleBreak.id ∧
        sampleBreak.click ⟨none, .Right⟩ 9 = some (sampleBreak, [])) :=
  ⟨⟨by decide, C10_unaddressed_click_noop sampleWorking ⟨some "other", .Left⟩ 9 (by decide)⟩,
    ⟨by decide, C10_unaddressed_click_noop sampleBreak ⟨none, .Right⟩ 9 (by decide)⟩⟩
